import Mathlib

/-!
Shallow embedding of the `ginit` repository (GitHub repository bootstrap tool)
and verification of its specification claims.

The embedding models:
- `subprocess.run(..., capture_output=True, check=True)` outcomes as `ProcOutcome`
  (the process either completed with an exit code, stdout and stderr, or the
  binary was absent, which in Python raises `FileNotFoundError`);
- observable side effects (prints, tool invocations, file writes, the remote
  repository-creation API call) as a trace of `Event`s;
- Python exceptions that can escape a function as `Except PyExc`;
- Python's `sub in s` substring test and `str.replace` as executable functions
  on character lists.

Each definition is translated from the corresponding Python function in src/
(`git_operations.py`, `licenses.py`, `github_api.py`, `config.py`, `main.py`).
-/

/-- Python's substring test `sub in s`, on character lists: true iff `sub`
occurs contiguously in `s`. -/
def pyInList (sub : List Char) : List Char → Bool
  | [] => sub.isEmpty
  | c :: cs => sub.isPrefixOf (c :: cs) || pyInList sub cs

/-- Python's substring test `sub in s` on strings. -/
def pyIn (sub s : String) : Bool :=
  pyInList sub.toList s.toList

/-- Fuel-indexed worker for Python's `str.replace` (all non-overlapping
occurrences, scanned left to right). The fuel is the length of the scanned
list, so it never runs out. -/
def pyReplaceAux (pat repl : List Char) : Nat → List Char → List Char
  | 0, s => s
  | _ + 1, [] => []
  | fuel + 1, c :: cs =>
    if !pat.isEmpty && pat.isPrefixOf (c :: cs) then
      repl ++ pyReplaceAux pat repl fuel ((c :: cs).drop pat.length)
    else
      c :: pyReplaceAux pat repl fuel cs

/-- Python's `s.replace(pat, repl)` for a non-empty pattern (the source only
calls it with the literal pattern "https://"). -/
def pyReplace (s pat repl : String) : String :=
  String.mk (pyReplaceAux pat.toList repl.toList s.toList.length s.toList)

/-- Python exceptions that can escape the modelled functions. -/
inductive PyExc where
  | fileNotFound
  | runtimeError (msg : String)
  deriving DecidableEq

/-- Outcome of one `subprocess.run` invocation: the process completed with an
exit code and captured stdout/stderr, or the binary was absent (Python raises
`FileNotFoundError` before any process runs). -/
inductive ProcOutcome where
  | completed (exitCode : Nat) (stdout stderr : String)
  | binMissing
  deriving DecidableEq

/-- Observable side effects of a workflow run. -/
inductive Event where
  | print (s : String)
  | toolInvocation (command : List String)
  | fsWrite (file : String) (content : String)
  | apiCreateRepo (name : String) (description : String) (priv : Bool)
      (licenseTemplate : Option String)
  deriving DecidableEq

/-- Whether an event is a filesystem write. -/
def Event.isFsWrite : Event → Bool
  | .fsWrite _ _ => true
  | _ => false

/-- Whether an event is the remote repository-creation API call. -/
def Event.isApi : Event → Bool
  | .apiCreateRepo _ _ _ _ => true
  | _ => false

namespace GitOperations

/-- `GitOperations.run_command` (git_operations.py lines 13-35):
`subprocess.run(command, cwd=cwd, capture_output=True, text=True, check=True)`.
Exit code 0 returns `(True, stdout)`; a nonzero exit raises
`CalledProcessError`, which is caught and returns `(False, e.stderr)`; an
absent binary raises `FileNotFoundError`, which is not caught. The event
records the tool invocation. -/
def run_command (command : List String) (outcome : ProcOutcome) :
    List Event × Except PyExc (Bool × String) :=
  ([.toolInvocation command],
    match outcome with
    | .completed exitCode out err =>
        if exitCode = 0 then .ok (true, out) else .ok (false, err)
    | .binMissing => .error .fileNotFound)

/-- `GitOperations.check_git_installed` (lines 37-48): runs `git --version`;
raises `RuntimeError` if it fails, returns True otherwise. -/
def check_git_installed (o : ProcOutcome) : List Event × Except PyExc Bool :=
  let c := run_command ["git", "--version"] o
  (c.1,
    match c.2 with
    | .ok (true, _) => .ok true
    | .ok (false, _) =>
        .error (.runtimeError "Git is not installed. Please install Git first.")
    | .error e => .error e)

/-- `GitOperations.init_repo` (lines 64-82): runs `git init`; prints a
diagnostic and returns False on failure, prints a confirmation and returns
True on success. -/
def init_repo (o : ProcOutcome) : List Event × Except PyExc Bool :=
  let c := run_command ["git", "init"] o
  match c.2 with
  | .ok (true, _) => (c.1 ++ [.print "Initialized git repository"], .ok true)
  | .ok (false, output) =>
      (c.1 ++ [.print ("Failed to initialize git: " ++ output)], .ok false)
  | .error e => (c.1, .error e)

/-- The default `.gitignore` content written by `create_gitignore`
(git_operations.py lines 95-120). -/
def default_gitignore_content : String :=
  "# Python\n__pycache__/\n*.py[cod]\n*$py.class\n*.so\n.Python\nenv/\nvenv/\nENV/\nbuild/\ndist/\n*.egg-info/\n\n# IDE\n.vscode/\n.idea/\n*.swp\n*.swo\n\n# OS\n.DS_Store\nThumbs.db\n\n# Environment\n.env\n"

/-- `GitOperations.create_gitignore` (lines 84-121): writes the default
content only when no `.gitignore` exists. -/
def create_gitignore (gitignoreExists : Bool) : List Event :=
  if gitignoreExists then []
  else [.fsWrite ".gitignore" default_gitignore_content]

/-- `GitOperations.add_all_files` (lines 123-140): runs `git add .`; prints a
diagnostic and returns False on failure. -/
def add_all_files (o : ProcOutcome) : List Event × Except PyExc Bool :=
  let c := run_command ["git", "add", "."] o
  match c.2 with
  | .ok (true, _) => (c.1, .ok true)
  | .ok (false, output) =>
      (c.1 ++ [.print ("Failed to add files: " ++ output)], .ok false)
  | .error e => (c.1, .error e)

/-- `GitOperations.commit` (lines 142-166): runs `git commit -m <msg>`. A
failure whose output contains "nothing to commit" is reclassified as success;
any other failure prints a diagnostic and returns False. -/
def commit (o : ProcOutcome) (commit_message : String) :
    List Event × Except PyExc Bool :=
  let c := run_command ["git", "commit", "-m", commit_message] o
  match c.2 with
  | .ok (true, _) => (c.1 ++ [.print "Created initial commit"], .ok true)
  | .ok (false, output) =>
      if pyIn "nothing to commit" output then (c.1, .ok true)
      else (c.1 ++ [.print ("Failed to commit: " ++ output)], .ok false)
  | .error e => (c.1, .error e)

/-- `GitOperations.add_remote` (lines 168-192): runs `git remote remove
origin` (result ignored, but an exception would still propagate), then `git
remote add origin <url>`. -/
def add_remote (oRemove oAdd : ProcOutcome) (repo_url : String) :
    List Event × Except PyExc Bool :=
  let r := run_command ["git", "remote", "remove", "origin"] oRemove
  match r.2 with
  | .error e => (r.1, .error e)
  | .ok _ =>
    let a := run_command ["git", "remote", "add", "origin", repo_url] oAdd
    match a.2 with
    | .ok (true, _) => (r.1 ++ a.1, .ok true)
    | .ok (false, output) =>
        (r.1 ++ a.1 ++ [.print ("Failed to add remote: " ++ output)], .ok false)
    | .error e => (r.1 ++ a.1, .error e)

/-- `GitOperations.rename_branch` (lines 194-215): runs `git branch -M
<branch>`. -/
def rename_branch (o : ProcOutcome) (branch : String) :
    List Event × Except PyExc Bool :=
  let c := run_command ["git", "branch", "-M", branch] o
  match c.2 with
  | .ok (true, _) => (c.1, .ok true)
  | .ok (false, output) =>
      (c.1 ++ [.print ("Failed to rename branch: " ++ output)], .ok false)
  | .error e => (c.1, .error e)

/-- `GitOperations.push` (lines 217-240): prints a progress message, runs
`git push -u origin <branch>`, prints the result. -/
def push (o : ProcOutcome) (branch : String) :
    List Event × Except PyExc Bool :=
  let c := run_command ["git", "push", "-u", "origin", branch] o
  match c.2 with
  | .ok (true, _) =>
      ([.print "Pushing to GitHub..."] ++ c.1 ++ [.print "\rPushed to GitHub     "],
        .ok true)
  | .ok (false, output) =>
      ([.print "Pushing to GitHub..."] ++ c.1
          ++ [.print ("\rFailed to push: " ++ output)], .ok false)
  | .error e => ([.print "Pushing to GitHub..."] ++ c.1, .error e)

end GitOperations

namespace LicenseTemplates

/-- The MIT template from `licenses.py` lines 53-74, with the f-string
substitutions made explicit. -/
def mit_text (year : Nat) (author_name : String) : String :=
  "MIT License\n\nCopyright (c) " ++ toString year ++ " " ++ author_name ++
  "\n\nPermission is hereby granted, free of charge, to any person obtaining a copy\nof this software and associated documentation files (the \"Software\"), to deal\nin the Software without restriction, including without limitation the rights\nto use, copy, modify, merge, publish, distribute, sublicense, and/or sell\ncopies of the Software, and to permit persons to whom the Software is\nfurnished to do so, subject to the following conditions:\n\nThe above copyright notice and this permission notice shall be included in all\ncopies or substantial portions of the Software.\n\nTHE SOFTWARE IS PROVIDED \"AS IS\", WITHOUT WARRANTY OF ANY KIND, EXPRESS OR\nIMPLIED, INCLUDING BUT NOT LIMITED TO THE WARRANTIES OF MERCHANTABILITY,\nFITNESS FOR A PARTICULAR PURPOSE AND NONINFRINGEMENT. IN NO EVENT SHALL THE\nAUTHORS OR COPYRIGHT HOLDERS BE LIABLE FOR ANY CLAIM, DAMAGES OR OTHER\nLIABILITY, WHETHER IN AN ACTION OF CONTRACT, TORT OR OTHERWISE, ARISING FROM,\nOUT OF OR IN CONNECTION WITH THE SOFTWARE OR THE USE OR OTHER DEALINGS IN THE\nSOFTWARE.\n"

/-- The Apache-2.0 template from `licenses.py` lines 75-92. -/
def apache_text (year : Nat) (author_name : String) : String :=
  "Apache License\nVersion 2.0, January 2004\nhttp://www.apache.org/licenses/\n\nCopyright " ++
  toString year ++ " " ++ author_name ++
  "\n\nLicensed under the Apache License, Version 2.0 (the \"License\");\nyou may not use this file except in compliance with the License.\nYou may obtain a copy of the License at\n\n    http://www.apache.org/licenses/LICENSE-2.0\n\nUnless required by applicable law or agreed to in writing, software\ndistributed under the License is distributed on an \"AS IS\" BASIS,\nWITHOUT WARRANTIES OR CONDITIONS OF ANY KIND, either express or implied.\nSee the License for the specific language governing permissions and\nlimitations under the License.\n"

/-- The GPL-3.0 template from `licenses.py` lines 93-110. -/
def gpl3_text (year : Nat) (author_name : String) : String :=
  "GNU GENERAL PUBLIC LICENSE\nVersion 3, 29 June 2007\n\nCopyright (C) " ++
  toString year ++ " " ++ author_name ++
  "\n\nThis program is free software: you can redistribute it and/or modify\nit under the terms of the GNU General Public License as published by\nthe Free Software Foundation, either version 3 of the License, or\n(at your option) any later version.\n\nThis program is distributed in the hope that it will be useful,\nbut WITHOUT ANY WARRANTY; without even the implied warranty of\nMERCHANTABILITY or FITNESS FOR A PARTICULAR PURPOSE.  See the\nGNU General Public License for more details.\n\nYou should have received a copy of the GNU General Public License\nalong with this program.  If not, see <https://www.gnu.org/licenses/>.\n"

/-- The BSD-3-Clause template from `licenses.py` lines 111-139. -/
def bsd3_text (year : Nat) (author_name : String) : String :=
  "BSD 3-Clause License\n\nCopyright (c) " ++ toString year ++ ", " ++ author_name ++
  "\n\nRedistribution and use in source and binary forms, with or without\nmodification, are permitted provided that the following conditions are met:\n\n1. Redistributions of source code must retain the above copyright notice, this\n   list of conditions and the following disclaimer.\n\n2. Redistributions in binary form must reproduce the above copyright notice,\n   this list of conditions and the following disclaimer in the documentation\n   and/or other materials provided with the distribution.\n\n3. Neither the name of the copyright holder nor the names of its\n   contributors may be used to endorse or promote products derived from\n   this software without specific prior written permission.\n\nTHIS SOFTWARE IS PROVIDED BY THE COPYRIGHT HOLDERS AND CONTRIBUTORS \"AS IS\"\nAND ANY EXPRESS OR IMPLIED WARRANTIES, INCLUDING, BUT NOT LIMITED TO, THE\nIMPLIED WARRANTIES OF MERCHANTABILITY AND FITNESS FOR A PARTICULAR PURPOSE ARE\nDISCLAIMED. IN NO EVENT SHALL THE COPYRIGHT HOLDER OR CONTRIBUTORS BE LIABLE\nFOR ANY DIRECT, INDIRECT, INCIDENTAL, SPECIAL, EXEMPLARY, OR CONSEQUENTIAL\nDAMAGES (INCLUDING, BUT NOT LIMITED TO, PROCUREMENT OF SUBSTITUTE GOODS OR\nSERVICES; LOSS OF USE, DATA, OR PROFITS; OR BUSINESS INTERRUPTION) HOWEVER\nCAUSED AND ON ANY THEORY OF LIABILITY, WHETHER IN CONTRACT, STRICT LIABILITY,\nOR TORT (INCLUDING NEGLIGENCE OR OTHERWISE) ARISING IN ANY WAY OUT OF THE USE\nOF THIS SOFTWARE, EVEN IF ADVISED OF THE POSSIBILITY OF SUCH DAMAGE.\n"

/-- The BSD-2-Clause template from `licenses.py` lines 140-164. -/
def bsd2_text (year : Nat) (author_name : String) : String :=
  "BSD 2-Clause License\n\nCopyright (c) " ++ toString year ++ ", " ++ author_name ++
  "\n\nRedistribution and use in source and binary forms, with or without\nmodification, are permitted provided that the following conditions are met:\n\n1. Redistributions of source code must retain the above copyright notice, this\n   list of conditions and the following disclaimer.\n\n2. Redistributions in binary form must reproduce the above copyright notice,\n   this list of conditions and the following disclaimer in the documentation\n   and/or other materials provided with the distribution.\n\nTHIS SOFTWARE IS PROVIDED BY THE COPYRIGHT HOLDERS AND CONTRIBUTORS \"AS IS\"\nAND ANY EXPRESS OR IMPLIED WARRANTIES, INCLUDING, BUT NOT LIMITED TO, THE\nIMPLIED WARRANTIES OF MERCHANTABILITY AND FITNESS FOR A PARTICULAR PURPOSE ARE\nDISCLAIMED. IN NO EVENT SHALL THE COPYRIGHT HOLDER OR CONTRIBUTORS BE LIABLE\nFOR ANY DIRECT, INDIRECT, INCIDENTAL, SPECIAL, EXEMPLARY, OR CONSEQUENTIAL\nDAMAGES (INCLUDING, BUT NOT LIMITED TO, PROCUREMENT OF SUBSTITUTE GOODS OR\nSERVICES; LOSS OF USE, DATA, OR PROFITS; OR BUSINESS INTERRUPTION) HOWEVER\nCAUSED AND ON ANY THEORY OF LIABILITY, WHETHER IN CONTRACT, STRICT LIABILITY,\nOR TORT (INCLUDING NEGLIGENCE OR OTHERWISE) ARISING IN ANY WAY OUT OF THE USE\nOF THIS SOFTWARE, EVEN IF ADVISED OF THE POSSIBILITY OF SUCH DAMAGE.\n"

/-- The ISC template from `licenses.py` lines 165-180. -/
def isc_text (year : Nat) (author_name : String) : String :=
  "ISC License\n\nCopyright (c) " ++ toString year ++ ", " ++ author_name ++
  "\n\nPermission to use, copy, modify, and/or distribute this software for any\npurpose with or without fee is hereby granted, provided that the above\ncopyright notice and this permission notice appear in all copies.\n\nTHE SOFTWARE IS PROVIDED \"AS IS\" AND THE AUTHOR DISCLAIMS ALL WARRANTIES\nWITH REGARD TO THIS SOFTWARE INCLUDING ALL IMPLIED WARRANTIES OF\nMERCHANTABILITY AND FITNESS. IN NO EVENT SHALL THE AUTHOR BE LIABLE FOR\nANY SPECIAL, DIRECT, INDIRECT, OR CONSEQUENTIAL DAMAGES OR ANY DAMAGES\nWHATSOEVER RESULTING FROM LOSS OF USE, DATA OR PROFITS, WHETHER IN AN\nACTION OF CONTRACT, NEGLIGENCE OR OTHER TORTIOUS ACTION, ARISING OUT OF\nOR IN CONNECTION WITH THE USE OR PERFORMANCE OF THIS SOFTWARE.\n"

/-- The Unlicense template from `licenses.py` lines 181-205 (no
substitutions). -/
def unlicense_text : String :=
  "This is free and unencumbered software released into the public domain.\n\nAnyone is free to copy, modify, publish, use, compile, sell, or\ndistribute this software, either in source code form or as a compiled\nbinary, for any purpose, commercial or non-commercial, and by any\nmeans.\n\nIn jurisdictions that recognize copyright laws, the author or authors\nof this software dedicate any and all copyright interest in the\nsoftware to the public domain. We make this dedication for the benefit\nof the public at large and to the detriment of our heirs and\nsuccessors. We intend this dedication to be an overt act of\nrelinquishment in perpetuity of all present and future rights to this\nsoftware under copyright law.\n\nTHE SOFTWARE IS PROVIDED \"AS IS\", WITHOUT WARRANTY OF ANY KIND,\nEXPRESS OR IMPLIED, INCLUDING BUT NOT LIMITED TO THE WARRANTIES OF\nMERCHANTABILITY, FITNESS FOR A PARTICULAR PURPOSE AND NONINFRINGEMENT.\nIN NO EVENT SHALL THE AUTHORS BE LIABLE FOR ANY CLAIM, DAMAGES OR\nOTHER LIABILITY, WHETHER IN AN ACTION OF CONTRACT, TORT OR OTHERWISE,\nARISING FROM, OUT OF OR IN CONNECTION WITH THE SOFTWARE OR THE USE OR\nOTHER DEALINGS IN THE SOFTWARE.\n\nFor more information, please refer to <https://unlicense.org>\n"

/-- `LicenseTemplates.AVAILABLE_LICENSES` (licenses.py lines 12-21) as a
lookup function from identifier to display name. -/
def AVAILABLE_LICENSES (k : String) : Option String :=
  match k with
  | "MIT" => some "MIT License"
  | "Apache-2.0" => some "Apache License 2.0"
  | "GPL-3.0" => some "GNU General Public License v3.0"
  | "BSD-3-Clause" => some "BSD 3-Clause License"
  | "BSD-2-Clause" => some "BSD 2-Clause License"
  | "ISC" => some "ISC License"
  | "Unlicense" => some "The Unlicense"
  | "None" => some "No License"
  | _ => none

/-- `LicenseTemplates.get_license_content` (licenses.py lines 33-208).
`currentYear` models `datetime.now().year`, the year at invocation time; the
source uses it when `year` is None and substitutes a placeholder when
`author_name` is None, then looks the key up in the template dict. -/
def get_license_content (license_key : String) (author_name : Option String)
    (year : Option Nat) (currentYear : Nat) : Option String :=
  let y : Nat := year.getD currentYear
  let a : String := author_name.getD "[Your Name]"
  match license_key with
  | "MIT" => some (mit_text y a)
  | "Apache-2.0" => some (apache_text y a)
  | "GPL-3.0" => some (gpl3_text y a)
  | "BSD-3-Clause" => some (bsd3_text y a)
  | "BSD-2-Clause" => some (bsd2_text y a)
  | "ISC" => some (isc_text y a)
  | "Unlicense" => some unlicense_text
  | _ => none

/-- `LicenseTemplates.create_license_file` (licenses.py lines 210-243).
`licenseExists` models whether a LICENSE file is already present at the target
path. Key "None" skips silently; an unknown key prints a warning and returns
False; a pre-existing file returns True without writing; otherwise the content
is written and a confirmation printed. -/
def create_license_file (licenseExists : Bool) (license_key : String)
    (author_name : Option String) (year : Option Nat) (currentYear : Nat) :
    List Event × Bool :=
  if license_key = "None" then ([], true)
  else
    match get_license_content license_key author_name year currentYear with
    | none =>
        ([.print ("Warning: License \x27" ++ license_key ++ "\x27 not found.")],
          false)
    | some license_content =>
        if licenseExists then ([], true)
        else
          ([.fsWrite "LICENSE" license_content,
            .print ("Created LICENSE ("
              ++ (match AVAILABLE_LICENSES license_key with
                  | some n => n
                  | none => "None") ++ ")")], true)

end LicenseTemplates

namespace GitHubAPI

/-- The repository object returned by the provider on successful creation
(the fields the orchestrator consumes). -/
structure Repo where
  clone_url : String
  html_url : String
  deriving DecidableEq

/-- Outcome of the provider's `create_repo` call: success with a repository
object, or a `GithubException` carrying an HTTP status, the optional
`data["message"]` field and the exception's string rendering. -/
inductive CreateRepoOutcome where
  | success (repo : Repo)
  | githubExc (status : Nat) (dataMessage : Option String) (excStr : String)
  deriving DecidableEq

/-- The `github_license_map` dict from `github_api.py` lines 49-57. -/
def github_license_map (k : String) : Option String :=
  match k with
  | "MIT" => some "mit"
  | "Apache-2.0" => some "apache-2.0"
  | "GPL-3.0" => some "gpl-3.0"
  | "BSD-3-Clause" => some "bsd-3-clause"
  | "BSD-2-Clause" => some "bsd-2-clause"
  | "ISC" => some "isc"
  | "Unlicense" => some "unlicense"
  | _ => none

/-- `github_api.py` line 59: `github_license_map.get(license_key) if
license_key and license_key != 'None' else None`. A Python `None` or empty
string is falsy. -/
def license_template_of (license_key : Option String) : Option String :=
  match license_key with
  | some k => if k ≠ "" ∧ k ≠ "None" then github_license_map k else none
  | none => none

/-- `GitHubAPI.create_repository` (github_api.py lines 32-75): prints a
progress message, calls the provider's create_repo (the API-call event), and
on `GithubException` distinguishes status 422 ("already exists") from other
failures (reported with `e.data.get("message", str(e))`); both return None. -/
def create_repository (outcome : CreateRepoOutcome) (repo_name : String)
    (description : String) (priv : Bool) (license_key : Option String) :
    List Event × Option Repo :=
  let lt := license_template_of license_key
  let evStart : List Event :=
    [.print "Creating GitHub repository...",
     .apiCreateRepo repo_name description priv lt]
  match outcome with
  | .success repo =>
      (evStart ++ [.print ("\rCreated repository: " ++ repo_name)], some repo)
  | .githubExc status dataMessage excStr =>
      if status = 422 then
        (evStart ++ [.print ("\rRepository \x27" ++ repo_name ++ "\x27 already exists")],
          none)
      else
        (evStart
            ++ [.print ("\rFailed to create repository: " ++ dataMessage.getD excStr)],
          none)

/-- `GitHubAPI.get_authenticated_repo_url` (github_api.py lines 77-87):
`repo.clone_url.replace('https://', f'https://{self.github_token}@')`. -/
def get_authenticated_repo_url (repo : Repo) (github_token : String) : String :=
  pyReplace repo.clone_url "https://" ("https://" ++ github_token ++ "@")

end GitHubAPI

namespace Config

/-- `Config.validate_folder_path` (config.py lines 56-78): raises `ValueError`
(modelled as `.error` with the message) when the path does not exist or is not
a directory; resolution is modelled as the identity on the path string. -/
def validate_folder_path (pathExists isDir : Bool) (path : String) :
    Except String String :=
  if !pathExists then
    .error ("Folder \x27" ++ path ++ "\x27 does not exist.")
  else if !isDir then
    .error ("\x27" ++ path ++ "\x27 is not a directory.")
  else
    .ok path

end Config

/-- The external world a workflow run interacts with: the state of the local
path, the outcome of every git invocation the run may make, and the outcome
of the provider's repository-creation call. -/
structure Env where
  pathExists : Bool
  isDir : Bool
  folderName : String
  path : String
  isGitRepo : Bool
  gitignoreExists : Bool
  licenseExists : Bool
  currentYear : Nat
  github_token : String
  gitVersion : ProcOutcome
  gitInit : ProcOutcome
  gitAdd : ProcOutcome
  gitCommit : ProcOutcome
  gitRemoteRemove : ProcOutcome
  gitRemoteAdd : ProcOutcome
  gitBranch : ProcOutcome
  gitPush : ProcOutcome
  createRepo : GitHubAPI.CreateRepoOutcome

namespace GitHubAutomation

open GitOperations LicenseTemplates GitHubAPI Config

/-- The add/commit/create/remote/push tail of
`GitHubAutomation.automate_full_workflow` (main.py lines 72-98): stage all
files, commit, create the remote repository, derive the authenticated URL,
register the remote, rename the branch, push, and report. -/
def stage_commit_and_publish (env : Env) (repoName description : String)
    (priv : Bool) (license_key : Option String) (commit_message : String) :
    Except PyExc Bool × List Event :=
  let a := add_all_files env.gitAdd
  match a.2 with
  | .error e => (.error e, a.1)
  | .ok false => (.ok false, a.1)
  | .ok true =>
    let c := GitOperations.commit env.gitCommit commit_message
    match c.2 with
    | .error e => (.error e, a.1 ++ c.1)
    | .ok false => (.ok false, a.1 ++ c.1)
    | .ok true =>
      let r := create_repository env.createRepo repoName description priv license_key
      match r.2 with
      | none => (.ok false, a.1 ++ c.1 ++ r.1)
      | some repo =>
        let repo_url := get_authenticated_repo_url repo env.github_token
        let rem := add_remote env.gitRemoteRemove env.gitRemoteAdd repo_url
        match rem.2 with
        | .error e => (.error e, a.1 ++ c.1 ++ r.1 ++ rem.1)
        | .ok false => (.ok false, a.1 ++ c.1 ++ r.1 ++ rem.1)
        | .ok true =>
          let b := rename_branch env.gitBranch "main"
          match b.2 with
          | .error e => (.error e, a.1 ++ c.1 ++ r.1 ++ rem.1 ++ b.1)
          | .ok false => (.ok false, a.1 ++ c.1 ++ r.1 ++ rem.1 ++ b.1)
          | .ok true =>
            let p := GitOperations.push env.gitPush "main"
            match p.2 with
            | .error e => (.error e, a.1 ++ c.1 ++ r.1 ++ rem.1 ++ b.1 ++ p.1)
            | .ok false => (.ok false, a.1 ++ c.1 ++ r.1 ++ rem.1 ++ b.1 ++ p.1)
            | .ok true =>
                (.ok true,
                  a.1 ++ c.1 ++ r.1 ++ rem.1 ++ b.1 ++ p.1
                    ++ [.print ("\nRepository created: " ++ repo.html_url)])

/-- The license step of the workflow (main.py lines 68-70): when a truthy key
other than "None" was given, call `create_license_file` (its result is
ignored; only its events remain observable). -/
def license_step (licenseExists : Bool) (license_key license_author : Option String)
    (currentYear : Nat) : List Event :=
  match license_key with
  | some k =>
      if k ≠ "" ∧ k ≠ "None" then
        (LicenseTemplates.create_license_file licenseExists k license_author none
          currentYear).1
      else []
  | none => []

/-- `GitHubAutomation.automate_full_workflow` (main.py lines 28-98): validate
the path (a `ValueError` is caught, printed and turned into False), default
the repository name, check git is installed (may raise), initialize the
repository when the path is not one yet, ensure a `.gitignore`, write the
license file when a truthy key other than "None" was given (result ignored),
then stage, commit, create the remote repository and push. The first result
component is the returned bool or the escaping exception; the second is the
event trace up to that point. -/
def automate_full_workflow (env : Env) (repo_name : Option String)
    (description : String) (priv : Bool) (license_key : Option String)
    (license_author : Option String) (commit_message : String) :
    Except PyExc Bool × List Event :=
  match validate_folder_path env.pathExists env.isDir env.path with
  | .error msg => (.ok false, [.print ("Error: " ++ msg)])
  | .ok _ =>
    let repoName := repo_name.getD env.folderName
    let g := check_git_installed env.gitVersion
    match g.2 with
    | .error e => (.error e, g.1)
    | .ok _ =>
      let i := if env.isGitRepo then (([], Except.ok true) : List Event × Except PyExc Bool)
               else init_repo env.gitInit
      match i.2 with
      | .error e => (.error e, g.1 ++ i.1)
      | .ok false => (.ok false, g.1 ++ i.1)
      | .ok true =>
        let evIgnore := create_gitignore env.gitignoreExists
        let evLicense := license_step env.licenseExists license_key
          license_author env.currentYear
        let s := stage_commit_and_publish env repoName description priv
                   license_key commit_message
        (s.1, g.1 ++ i.1 ++ evIgnore ++ evLicense ++ s.2)

end GitHubAutomation

/-- A git invocation that ran and exited with status 0. -/
def gitSucceeds (o : ProcOutcome) : Prop :=
  ∃ out err, o = .completed 0 out err

/-- The workflow reaches the commit step: the path validates, `git --version`
succeeds, the folder is already a repository or `git init` succeeds, and
`git add .` succeeds. -/
def reachesCommitStep (env : Env) : Prop :=
  env.pathExists = true ∧ env.isDir = true ∧ gitSucceeds env.gitVersion ∧
    (env.isGitRepo = true ∨ gitSucceeds env.gitInit) ∧ gitSucceeds env.gitAdd

/-- The workflow reaches the repository-creation step: it reaches the commit
step and the commit either succeeds or fails with "nothing to commit" in its
stderr. -/
def reachesCreateStep (env : Env) : Prop :=
  reachesCommitStep env ∧
    (gitSucceeds env.gitCommit ∨
      ∃ code out err, env.gitCommit = .completed code out err ∧ code ≠ 0 ∧
        pyIn "nothing to commit" err = true)

lemma isPrefixOf_self_append (l t : List Char) : l.isPrefixOf (l ++ t) = true := by
  induction l with
  | nil => simp [List.isPrefixOf]
  | cons c cs ih => simp [List.isPrefixOf, ih]

lemma pyReplaceAux_no_occurrence (pat repl : List Char) :
    ∀ fuel s, pyInList pat s = false → pyReplaceAux pat repl fuel s = s := by
  intro fuel
  induction fuel with
  | zero => intro s _; rfl
  | succ n ih =>
    intro s h
    cases s with
    | nil => rfl
    | cons c cs =>
      rw [pyInList] at h
      rw [Bool.or_eq_false_iff] at h
      rw [pyReplaceAux, h.1]
      simp [ih cs h.2]

lemma pyReplaceAux_replace_head (pat repl s : List Char) (hpat : pat ≠ [])
    (h : pyInList pat s = false) :
    pyReplaceAux pat repl (pat ++ s).length (pat ++ s) = repl ++ s := by
  cases pat with
  | nil => exact absurd rfl hpat
  | cons c pat' =>
    rw [show (c :: pat') ++ s = c :: (pat' ++ s) from rfl]
    rw [show (c :: (pat' ++ s)).length = (pat' ++ s).length + 1 from rfl]
    rw [pyReplaceAux]
    have hpre : (c :: pat').isPrefixOf (c :: (pat' ++ s)) = true :=
      isPrefixOf_self_append (c :: pat') s
    rw [hpre]
    simp only [List.isEmpty_cons, Bool.not_false, Bool.and_true, if_true]
    have hdrop : (c :: (pat' ++ s)).drop (c :: pat').length = s := by
      rw [show (c :: pat').length = pat'.length + 1 from rfl]
      rw [List.drop_succ_cons]
      exact List.drop_left pat' s
    rw [hdrop, pyReplaceAux_no_occurrence (c :: pat') repl _ s h]

lemma string_toList_append (a b : String) : (a ++ b).toList = a.toList ++ b.toList := by
  cases a
  cases b
  rfl

lemma string_mk_toList_append (a b : String) :
    String.mk (a.toList ++ b.toList) = a ++ b := by
  cases a
  cases b
  rfl

/-- C8: for every RemoteRepository whose clone URL is "https://" followed by a
remainder not itself containing "https://", and every credential string,
`get_authenticated_repo_url` returns the clone URL with the prefix "https://"
replaced by "https://credential@" and the remainder unchanged. -/
theorem C8_authenticated_url_embeds_credential (repo : GitHubAPI.Repo)
    (credential rest : String)
    (hurl : repo.clone_url = "https://" ++ rest)
    (hno : pyIn "https://" rest = false) :
    GitHubAPI.get_authenticated_repo_url repo credential =
      "https://" ++ credential ++ "@" ++ rest := by
  unfold GitHubAPI.get_authenticated_repo_url pyReplace
  rw [hurl]
  rw [string_toList_append "https://" rest]
  have hpat : ("https://".toList : List Char) ≠ [] := by decide
  rw [pyReplaceAux_replace_head _ _ _ hpat hno]
  exact string_mk_toList_append ("https://" ++ credential ++ "@") rest

/-- Witness for C8 at a concrete clone URL and credential. -/
theorem C8_witness :
    GitHubAPI.get_authenticated_repo_url
        ⟨"https://github.com/user/repo.git", "https://github.com/user/repo"⟩
        "token123" =
      "https://" ++ "token123" ++ "@" ++ "github.com/user/repo.git" :=
  C8_authenticated_url_embeds_credential _ "token123" "github.com/user/repo.git"
    (by decide) (by decide)

/-- C10: `run_command` yields `(True, stdout)` on a zero exit and
`(False, stderr)` on a nonzero exit; consequently the commit step's behaviour
is a function of the exit code and the stderr text only (stdout never matters),
and a failing commit is reclassified as success exactly when its stderr
contains "nothing to commit". -/
theorem C10_result_uses_stdout_on_success_stderr_on_failure :
    (∀ cmd out err, GitOperations.run_command cmd (.completed 0 out err) =
      ([.toolInvocation cmd], .ok (true, out))) ∧
    (∀ cmd code out err, code ≠ 0 →
      GitOperations.run_command cmd (.completed code out err) =
        ([.toolInvocation cmd], .ok (false, err))) ∧
    (∀ code stdout1 stdout2 err msg,
      GitOperations.commit (.completed code stdout1 err) msg =
        GitOperations.commit (.completed code stdout2 err) msg) ∧
    (∀ code out err msg, code ≠ 0 →
      ((GitOperations.commit (.completed code out err) msg).2 = .ok true ↔
        pyIn "nothing to commit" err = true)) := by
  refine ⟨?_, ?_, ?_, ?_⟩
  · intro cmd out err
    simp [GitOperations.run_command]
  · intro cmd code out err h
    simp [GitOperations.run_command, h]
  · intro code stdout1 stdout2 err msg
    by_cases h : code = 0 <;> simp [GitOperations.commit, GitOperations.run_command, h]
  · intro code out err msg h
    simp only [GitOperations.commit, GitOperations.run_command, h, if_false]
    cases hp : pyIn "nothing to commit" err <;> simp [hp]

/-- Witness for C10 at a concrete failing commit invocation. -/
theorem C10_witness :
    GitOperations.run_command ["git", "commit", "-m", "m"]
        (.completed 1 "out" "err") =
      ([.toolInvocation ["git", "commit", "-m", "m"]], .ok (false, "err")) ∧
    ((GitOperations.commit
        (.completed 1 "out" "nothing to commit, working tree clean") "m").2 =
          .ok true ↔
      pyIn "nothing to commit" "nothing to commit, working tree clean" = true) :=
  ⟨C10_result_uses_stdout_on_success_stderr_on_failure.2.1
      ["git", "commit", "-m", "m"] 1 "out" "err" (by decide),
    C10_result_uses_stdout_on_success_stderr_on_failure.2.2.2
      1 "out" "nothing to commit, working tree clean" "m" (by decide)⟩

/-- C2 counterexample: when the tool binary is absent, the staging operation
does not return a CommandResult; the `FileNotFoundError` raised by the process
launch propagates (only `CalledProcessError` is caught in `run_command`). -/
theorem C2_counterexample :
    (GitOperations.add_all_files ProcOutcome.binMissing).2 =
      Except.error PyExc.fileNotFound := rfl

/-- C2 as amended: every adapter operation is non-throwing whenever the
underlying tool binary launches and the invocation completes with some exit
status; with the binary absent, the launch exception propagates. -/
theorem C2_amended_no_throw_when_tool_runs :
    ∀ (cmd : List String) (code : Nat) (out err msg branch url : String)
      (code2 : Nat) (out2 err2 : String),
    (∃ r, GitOperations.run_command cmd (.completed code out err) =
      ([.toolInvocation cmd], Except.ok r)) ∧
    (∃ b, (GitOperations.init_repo (.completed code out err)).2 = .ok b) ∧
    (∃ b, (GitOperations.add_all_files (.completed code out err)).2 = .ok b) ∧
    (∃ b, (GitOperations.commit (.completed code out err) msg).2 = .ok b) ∧
    (∃ b, (GitOperations.add_remote (.completed code out err)
        (.completed code2 out2 err2) url).2 = .ok b) ∧
    (∃ b, (GitOperations.rename_branch (.completed code out err) branch).2 = .ok b) ∧
    (∃ b, (GitOperations.push (.completed code out err) branch).2 = .ok b) := by
  intro cmd code out err msg branch url code2 out2 err2
  refine ⟨?_, ?_, ?_, ?_, ?_, ?_, ?_⟩
  · by_cases h : code = 0
    · exact ⟨(true, out), by simp [GitOperations.run_command, h]⟩
    · exact ⟨(false, err), by simp [GitOperations.run_command, h]⟩
  · by_cases h : code = 0 <;>
      simp [GitOperations.init_repo, GitOperations.run_command, h]
  · by_cases h : code = 0 <;>
      simp [GitOperations.add_all_files, GitOperations.run_command, h]
  · by_cases h : code = 0 <;>
      simp [GitOperations.commit, GitOperations.run_command, h] <;>
      split <;> simp
  · by_cases h : code = 0 <;> by_cases h2 : code2 = 0 <;>
      simp [GitOperations.add_remote, GitOperations.run_command, h, h2]
  · by_cases h : code = 0 <;>
      simp [GitOperations.rename_branch, GitOperations.run_command, h]
  · by_cases h : code = 0 <;>
      simp [GitOperations.push, GitOperations.run_command, h]

/-- C3: a local path that does not exist, or is not a directory, makes the
workflow return False with the descriptive validation error as its only
observable event — no tool invocation, no filesystem write, no API call. -/
theorem C3_invalid_path_fails_fast (env : Env) (rn : Option String)
    (d : String) (p : Bool) (lk la : Option String) (cm : String) :
    (env.pathExists = false →
      GitHubAutomation.automate_full_workflow env rn d p lk la cm =
        (.ok false,
          [.print ("Error: " ++ ("Folder \x27" ++ env.path ++ "\x27 does not exist."))])) ∧
    (env.pathExists = true → env.isDir = false →
      GitHubAutomation.automate_full_workflow env rn d p lk la cm =
        (.ok false,
          [.print ("Error: " ++ ("\x27" ++ env.path ++ "\x27 is not a directory."))])) := by
  constructor
  · intro h
    simp [GitHubAutomation.automate_full_workflow, Config.validate_folder_path, h]
  · intro h1 h2
    simp [GitHubAutomation.automate_full_workflow, Config.validate_folder_path, h1, h2]

/-- Witness for C3: a missing path and a non-directory path, each yielding
only the validation error. -/
theorem C3_witness :
    (GitHubAutomation.automate_full_workflow
        { pathExists := false, isDir := false, folderName := "proj",
          path := "/missing", isGitRepo := false, gitignoreExists := false,
          licenseExists := false, currentYear := 2024, github_token := "t",
          gitVersion := .binMissing, gitInit := .binMissing,
          gitAdd := .binMissing, gitCommit := .binMissing,
          gitRemoteRemove := .binMissing, gitRemoteAdd := .binMissing,
          gitBranch := .binMissing, gitPush := .binMissing,
          createRepo := .githubExc 0 none "" }
        none "" false none none "Initial commit" =
      (.ok false,
        [.print ("Error: " ++ ("Folder \x27" ++ "/missing" ++ "\x27 does not exist."))])) ∧
    (GitHubAutomation.automate_full_workflow
        { pathExists := true, isDir := false, folderName := "proj",
          path := "/afile", isGitRepo := false, gitignoreExists := false,
          licenseExists := false, currentYear := 2024, github_token := "t",
          gitVersion := .binMissing, gitInit := .binMissing,
          gitAdd := .binMissing, gitCommit := .binMissing,
          gitRemoteRemove := .binMissing, gitRemoteAdd := .binMissing,
          gitBranch := .binMissing, gitPush := .binMissing,
          createRepo := .githubExc 0 none "" }
        none "" false none none "Initial commit" =
      (.ok false,
        [.print ("Error: " ++ ("\x27" ++ "/afile" ++ "\x27 is not a directory."))])) :=
  ⟨(C3_invalid_path_fails_fast _ none "" false none none "Initial commit").1 rfl,
    (C3_invalid_path_fails_fast _ none "" false none none "Initial commit").2 rfl rfl⟩

set_option maxRecDepth 1000000 in
/-- C9: the MIT content for author "Jane Doe" and year 2024 contains the line
"Copyright (c) 2024 Jane Doe" and the standard MIT permission and warranty
paragraphs verbatim; for every identifier, a missing author renders the
placeholder "[Your Name]" and a missing year renders the current calendar year
at invocation time. -/
theorem C9_license_content_and_defaults :
    (pyIn "Copyright (c) 2024 Jane Doe"
      ((LicenseTemplates.get_license_content "MIT" (some "Jane Doe") (some 2024)
        1999).getD "") = true) ∧
    (pyIn "Permission is hereby granted, free of charge, to any person obtaining a copy\nof this software and associated documentation files (the \"Software\"), to deal\nin the Software without restriction, including without limitation the rights\nto use, copy, modify, merge, publish, distribute, sublicense, and/or sell\ncopies of the Software, and to permit persons to whom the Software is\nfurnished to do so, subject to the following conditions:"
      ((LicenseTemplates.get_license_content "MIT" (some "Jane Doe") (some 2024)
        1999).getD "") = true) ∧
    (pyIn "THE SOFTWARE IS PROVIDED \"AS IS\", WITHOUT WARRANTY OF ANY KIND, EXPRESS OR\nIMPLIED, INCLUDING BUT NOT LIMITED TO THE WARRANTIES OF MERCHANTABILITY,\nFITNESS FOR A PARTICULAR PURPOSE AND NONINFRINGEMENT. IN NO EVENT SHALL THE\nAUTHORS OR COPYRIGHT HOLDERS BE LIABLE FOR ANY CLAIM, DAMAGES OR OTHER\nLIABILITY, WHETHER IN AN ACTION OF CONTRACT, TORT OR OTHERWISE, ARISING FROM,\nOUT OF OR IN CONNECTION WITH THE SOFTWARE OR THE USE OR OTHER DEALINGS IN THE\nSOFTWARE."
      ((LicenseTemplates.get_license_content "MIT" (some "Jane Doe") (some 2024)
        1999).getD "") = true) ∧
    (∀ k a currentYear, LicenseTemplates.get_license_content k a none currentYear =
      LicenseTemplates.get_license_content k a (some currentYear) currentYear) ∧
    (∀ k y currentYear, LicenseTemplates.get_license_content k none y currentYear =
      LicenseTemplates.get_license_content k (some "[Your Name]") y currentYear) := by
  refine ⟨by decide, by decide, by decide, ?_, ?_⟩
  · intro k a currentYear
    rfl
  · intro k y currentYear
    rfl

/-- A predicate on events that holds for every print and every tool
invocation. -/
def PrintsAndTools (p : Event → Bool) : Prop :=
  (∀ s, p (.print s) = true) ∧ (∀ c, p (.toolInvocation c) = true)

lemma run_command_ev (cmd : List String) (o : ProcOutcome) :
    (GitOperations.run_command cmd o).1 = [.toolInvocation cmd] := rfl

lemma check_git_installed_ev (o : ProcOutcome) :
    (GitOperations.check_git_installed o).1 =
      [.toolInvocation ["git", "--version"]] := rfl

lemma init_repo_ev_all {p : Event → Bool} (hp : PrintsAndTools p)
    (o : ProcOutcome) : ((GitOperations.init_repo o).1).all p = true := by
  cases o with
  | completed code out err =>
      by_cases h : code = 0 <;>
        simp [GitOperations.init_repo, GitOperations.run_command, h, hp.1, hp.2]
  | binMissing =>
      simp [GitOperations.init_repo, GitOperations.run_command, hp.2]

lemma add_all_files_ev_all {p : Event → Bool} (hp : PrintsAndTools p)
    (o : ProcOutcome) : ((GitOperations.add_all_files o).1).all p = true := by
  cases o with
  | completed code out err =>
      by_cases h : code = 0 <;>
        simp [GitOperations.add_all_files, GitOperations.run_command, h, hp.1, hp.2]
  | binMissing =>
      simp [GitOperations.add_all_files, GitOperations.run_command, hp.2]

lemma commit_ev_all {p : Event → Bool} (hp : PrintsAndTools p)
    (o : ProcOutcome) (m : String) :
    ((GitOperations.commit o m).1).all p = true := by
  cases o with
  | completed code out err =>
      by_cases h : code = 0
      · simp [GitOperations.commit, GitOperations.run_command, h, hp.1, hp.2]
      · cases hsub : pyIn "nothing to commit" err <;>
          simp [GitOperations.commit, GitOperations.run_command, h, hsub, hp.1, hp.2]
  | binMissing =>
      simp [GitOperations.commit, GitOperations.run_command, hp.2]

lemma add_remote_ev_all {p : Event → Bool} (hp : PrintsAndTools p)
    (o1 o2 : ProcOutcome) (url : String) :
    ((GitOperations.add_remote o1 o2 url).1).all p = true := by
  cases o1 with
  | binMissing =>
      simp [GitOperations.add_remote, GitOperations.run_command, hp.2]
  | completed code1 out1 err1 =>
      cases o2 with
      | binMissing =>
          by_cases h1 : code1 = 0 <;>
            simp [GitOperations.add_remote, GitOperations.run_command, h1, hp.1, hp.2]
      | completed code2 out2 err2 =>
          by_cases h1 : code1 = 0 <;> by_cases h2 : code2 = 0 <;>
            simp [GitOperations.add_remote, GitOperations.run_command, h1, h2,
              hp.1, hp.2]

lemma rename_branch_ev_all {p : Event → Bool} (hp : PrintsAndTools p)
    (o : ProcOutcome) (b : String) :
    ((GitOperations.rename_branch o b).1).all p = true := by
  cases o with
  | completed code out err =>
      by_cases h : code = 0 <;>
        simp [GitOperations.rename_branch, GitOperations.run_command, h, hp.1, hp.2]
  | binMissing =>
      simp [GitOperations.rename_branch, GitOperations.run_command, hp.2]

lemma push_ev_all {p : Event → Bool} (hp : PrintsAndTools p)
    (o : ProcOutcome) (b : String) :
    ((GitOperations.push o b).1).all p = true := by
  cases o with
  | completed code out err =>
      by_cases h : code = 0 <;>
        simp [GitOperations.push, GitOperations.run_command, h, hp.1, hp.2]
  | binMissing =>
      simp [GitOperations.push, GitOperations.run_command, hp.1, hp.2]

lemma create_repository_ev_all {p : Event → Bool} (hp : PrintsAndTools p)
    (hapi : ∀ n d pv lt, p (.apiCreateRepo n d pv lt) = true)
    (o : GitHubAPI.CreateRepoOutcome) (n d : String) (pv : Bool)
    (lk : Option String) :
    ((GitHubAPI.create_repository o n d pv lk).1).all p = true := by
  cases o with
  | success repo =>
      simp [GitHubAPI.create_repository, hp.1, hapi]
  | githubExc st dm es =>
      by_cases h : st = 422 <;>
        simp [GitHubAPI.create_repository, h, hp.1, hapi]

lemma create_repository_ev_any_api (o : GitHubAPI.CreateRepoOutcome)
    (n d : String) (pv : Bool) (lk : Option String) :
    ((GitHubAPI.create_repository o n d pv lk).1).any (fun e => e.isApi) = true := by
  cases o with
  | success repo =>
      simp [GitHubAPI.create_repository, Event.isApi]
  | githubExc st dm es =>
      by_cases h : st = 422 <;>
        simp [GitHubAPI.create_repository, h, Event.isApi]

lemma create_license_file_ev_no_api (ex : Bool) (k : String)
    (a : Option String) (y : Option Nat) (cy : Nat) :
    ((LicenseTemplates.create_license_file ex k a y cy).1).all
      (fun e => !e.isApi) = true := by
  by_cases hk : k = "None"
  · simp [LicenseTemplates.create_license_file, hk]
  · cases hg : LicenseTemplates.get_license_content k a y cy with
    | none => simp [LicenseTemplates.create_license_file, hk, hg, Event.isApi]
    | some content =>
        cases ex <;>
          simp [LicenseTemplates.create_license_file, hk, hg, Event.isApi]

lemma create_license_file_exists_no_write (k : String) (a : Option String)
    (y : Option Nat) (cy : Nat) :
    ((LicenseTemplates.create_license_file true k a y cy).1).all
      (fun e => !e.isFsWrite) = true := by
  by_cases hk : k = "None"
  · simp [LicenseTemplates.create_license_file, hk]
  · cases hg : LicenseTemplates.get_license_content k a y cy with
    | none => simp [LicenseTemplates.create_license_file, hk, hg, Event.isFsWrite]
    | some content =>
        simp [LicenseTemplates.create_license_file, hk, hg, Event.isFsWrite]

lemma create_gitignore_ev_no_api (b : Bool) :
    ((GitOperations.create_gitignore b).all (fun e => !e.isApi)) = true := by
  cases b <;> simp [GitOperations.create_gitignore, Event.isApi]

lemma printsAndTools_noapi : PrintsAndTools (fun e => !e.isApi) :=
  ⟨fun _ => rfl, fun _ => rfl⟩

lemma printsAndTools_nowrite : PrintsAndTools (fun e => !e.isFsWrite) :=
  ⟨fun _ => rfl, fun _ => rfl⟩

lemma stage_ev_all {p : Event → Bool} (hp : PrintsAndTools p)
    (hapi : ∀ n d pv lt, p (.apiCreateRepo n d pv lt) = true)
    (env : Env) (rn de : String) (pv : Bool) (lk : Option String) (cm : String) :
    ((GitHubAutomation.stage_commit_and_publish env rn de pv lk cm).2).all p = true := by
  simp only [GitHubAutomation.stage_commit_and_publish]
  repeat' split
  all_goals
    simp [List.all_append, add_all_files_ev_all hp, commit_ev_all hp,
      create_repository_ev_all hp hapi, add_remote_ev_all hp,
      rename_branch_ev_all hp, push_ev_all hp, hp.1]

lemma workflow_ev_all {p : Event → Bool} (hp : PrintsAndTools p)
    (hapi : ∀ n d pv lt, p (.apiCreateRepo n d pv lt) = true)
    (env : Env) (rn : Option String) (de : String) (pv : Bool)
    (lk la : Option String) (cm : String)
    (hig : (GitOperations.create_gitignore env.gitignoreExists).all p = true)
    (hlic : (GitHubAutomation.license_step env.licenseExists lk la
      env.currentYear).all p = true) :
    ((GitHubAutomation.automate_full_workflow env rn de pv lk la cm).2).all p = true := by
  simp only [GitHubAutomation.automate_full_workflow]
  repeat' split
  all_goals
    simp [List.all_append, check_git_installed_ev, init_repo_ev_all hp,
      stage_ev_all hp hapi, hig, hlic, hp.1, hp.2]

lemma stage_commit_fail_no_api (env : Env) (rn de : String) (pv : Bool)
    (lk : Option String) (cm : String) (code : Nat) (out err : String)
    (hc : env.gitCommit = .completed code out err) (h0 : code ≠ 0)
    (hsub : pyIn "nothing to commit" err = false) :
    (GitHubAutomation.stage_commit_and_publish env rn de pv lk cm).1 ≠ Except.ok true ∧
    ((GitHubAutomation.stage_commit_and_publish env rn de pv lk cm).2).all
      (fun e => !e.isApi) = true := by
  simp only [GitHubAutomation.stage_commit_and_publish]
  rw [hc]
  cases hA : env.gitAdd with
  | binMissing =>
      simp [GitOperations.add_all_files, GitOperations.run_command, Event.isApi]
  | completed codeA outA errA =>
      by_cases hA0 : codeA = 0
      · simp [GitOperations.add_all_files, GitOperations.commit,
          GitOperations.run_command, hA0, h0, hsub, Event.isApi]
      · simp [GitOperations.add_all_files, GitOperations.run_command, hA0,
          Event.isApi]

lemma stage_reaches_api (env : Env) (rn de : String) (pv : Bool)
    (lk : Option String) (cm : String)
    (hadd : gitSucceeds env.gitAdd)
    (hcommit : gitSucceeds env.gitCommit ∨
      ∃ code out err, env.gitCommit = .completed code out err ∧ code ≠ 0 ∧
        pyIn "nothing to commit" err = true) :
    ((GitHubAutomation.stage_commit_and_publish env rn de pv lk cm).2).any
      (fun e => e.isApi) = true := by
  obtain ⟨oA, eA, hA⟩ := hadd
  simp only [GitHubAutomation.stage_commit_and_publish]
  rw [hA]
  rcases hcommit with ⟨oC, eC, hC⟩ | ⟨code, outC, errC, hC, h0, hsub⟩ <;> rw [hC]
  · repeat' split
    all_goals
      simp_all [GitOperations.add_all_files, GitOperations.commit,
        GitOperations.run_command, List.any_append, create_repository_ev_any_api]
  · repeat' split
    all_goals
      simp_all [GitOperations.add_all_files, GitOperations.commit,
        GitOperations.run_command, List.any_append, create_repository_ev_any_api,
        h0, hsub]

lemma stage_create_exc (env : Env) (rn de : String) (pv : Bool)
    (lk : Option String) (cm : String) (st : Nat) (dm : Option String)
    (es : String)
    (hadd : gitSucceeds env.gitAdd)
    (hcommit : gitSucceeds env.gitCommit ∨
      ∃ code out err, env.gitCommit = .completed code out err ∧ code ≠ 0 ∧
        pyIn "nothing to commit" err = true)
    (hcr : env.createRepo = .githubExc st dm es) :
    (GitHubAutomation.stage_commit_and_publish env rn de pv lk cm).1 =
      Except.ok false ∧
    ∀ e ∈ (GitHubAPI.create_repository env.createRepo rn de pv lk).1,
      e ∈ (GitHubAutomation.stage_commit_and_publish env rn de pv lk cm).2 := by
  obtain ⟨oA, eA, hA⟩ := hadd
  have hr2 : (GitHubAPI.create_repository env.createRepo rn de pv lk).2 = none := by
    rw [hcr]
    by_cases h422 : st = 422 <;> simp [GitHubAPI.create_repository, h422]
  simp only [GitHubAutomation.stage_commit_and_publish]
  rw [hA]
  rcases hcommit with ⟨oC, eC, hC⟩ | ⟨code, outC, errC, hC, h0, hsub⟩ <;> rw [hC]
  · simp [GitOperations.add_all_files, GitOperations.commit,
      GitOperations.run_command, hr2, List.mem_append]
    intro e he
    tauto
  · simp [GitOperations.add_all_files, GitOperations.commit,
      GitOperations.run_command, h0, hsub, hr2, List.mem_append]
    intro e he
    tauto

lemma create_repository_key_congr (o : GitHubAPI.CreateRepoOutcome)
    (n de : String) (pv : Bool) (k1 k2 : Option String)
    (h : GitHubAPI.license_template_of k1 = GitHubAPI.license_template_of k2) :
    GitHubAPI.create_repository o n de pv k1 =
      GitHubAPI.create_repository o n de pv k2 := by
  simp only [GitHubAPI.create_repository]
  rw [h]

lemma stage_key_congr (env : Env) (rn de : String) (pv : Bool) (cm : String)
    (k1 k2 : Option String)
    (h : GitHubAPI.license_template_of k1 = GitHubAPI.license_template_of k2) :
    GitHubAutomation.stage_commit_and_publish env rn de pv k1 cm =
      GitHubAutomation.stage_commit_and_publish env rn de pv k2 cm := by
  simp only [GitHubAutomation.stage_commit_and_publish]
  rw [create_repository_key_congr env.createRepo rn de pv k1 k2 h]

lemma workflow_reached (env : Env) (rn : Option String) (de : String)
    (pv : Bool) (lk la : Option String) (cm : String)
    (hpe : env.pathExists = true) (hd : env.isDir = true)
    (hv : gitSucceeds env.gitVersion)
    (hi : env.isGitRepo = true ∨ gitSucceeds env.gitInit) :
    (GitHubAutomation.automate_full_workflow env rn de pv lk la cm).1 =
      (GitHubAutomation.stage_commit_and_publish env (rn.getD env.folderName)
        de pv lk cm).1 ∧
    ∃ pre,
      (GitHubAutomation.automate_full_workflow env rn de pv lk la cm).2 =
        pre ++ (GitHubAutomation.stage_commit_and_publish env
          (rn.getD env.folderName) de pv lk cm).2 := by
  obtain ⟨ov, ev, hv⟩ := hv
  have hval : Config.validate_folder_path env.pathExists env.isDir env.path =
      .ok env.path := by
    simp [Config.validate_folder_path, hpe, hd]
  have hchk : GitOperations.check_git_installed env.gitVersion =
      ([.toolInvocation ["git", "--version"]], .ok true) := by
    rw [hv]
    simp [GitOperations.check_git_installed, GitOperations.run_command]
  have hinit : ∃ evI,
      (if env.isGitRepo then (([], Except.ok true) : List Event × Except PyExc Bool)
       else GitOperations.init_repo env.gitInit) = (evI, Except.ok true) := by
    rcases hi with hrepo | ⟨oi, ei, hi2⟩
    · rw [hrepo]
      exact ⟨[], rfl⟩
    · cases hrepo : env.isGitRepo
      case true => exact ⟨[], rfl⟩
      case false =>
        rw [hi2]
        simp [GitOperations.init_repo, GitOperations.run_command]
  obtain ⟨evI, hinit⟩ := hinit
  constructor
  · simp only [GitHubAutomation.automate_full_workflow, hval, hchk, hinit]
  · simp only [GitHubAutomation.automate_full_workflow, hval, hchk, hinit]
    exact ⟨_, rfl⟩

lemma license_step_ev_no_api (ex : Bool) (lk la : Option String) (cy : Nat) :
    (GitHubAutomation.license_step ex lk la cy).all (fun e => !e.isApi) = true := by
  cases lk with
  | none => rfl
  | some k =>
      by_cases h1 : k ≠ "" ∧ k ≠ "None"
      · simp [GitHubAutomation.license_step, h1, create_license_file_ev_no_api]
      · simp [GitHubAutomation.license_step, h1]

lemma license_step_exists_no_write (lk la : Option String) (cy : Nat) :
    (GitHubAutomation.license_step true lk la cy).all (fun e => !e.isFsWrite) = true := by
  cases lk with
  | none => rfl
  | some k =>
      by_cases h1 : k ≠ "" ∧ k ≠ "None"
      · simp [GitHubAutomation.license_step, h1, create_license_file_exists_no_write]
      · simp [GitHubAutomation.license_step, h1]

lemma init_step_ev_all {p : Event → Bool} (hp : PrintsAndTools p) (b : Bool)
    (o : ProcOutcome) :
    ((if b then (([], Except.ok true) : List Event × Except PyExc Bool)
      else GitOperations.init_repo o).1).all p = true := by
  cases b
  case false => exact init_repo_ev_all hp o
  case true => rfl

/-- C5: on a directory that already has a `.gitignore` (and, when a license
was chosen, a LICENSE file), a workflow run performs no filesystem write at
all, so both files are left unchanged; at the step level, the ignore-file is
written only when absent and a pre-existing license file is treated as
success. -/
theorem C5_existing_files_untouched (env : Env) (rn : Option String)
    (de : String) (pv : Bool) (lk la : Option String) (cm : String) :
    (GitOperations.create_gitignore true = []) ∧
    (∀ key a y cy, (LicenseTemplates.get_license_content key a y cy).isSome = true →
      LicenseTemplates.create_license_file true key a y cy = ([], true)) ∧
    (env.gitignoreExists = true → env.licenseExists = true →
      ((GitHubAutomation.automate_full_workflow env rn de pv lk la cm).2).all
        (fun e => !e.isFsWrite) = true) := by
  refine ⟨rfl, ?_, ?_⟩
  · intro key a y cy h
    by_cases hk : key = "None"
    · simp [LicenseTemplates.create_license_file, hk]
    · cases hg : LicenseTemplates.get_license_content key a y cy with
      | none => rw [hg] at h; simp at h
      | some content => simp [LicenseTemplates.create_license_file, hk, hg]
  · intro h1 h2
    refine workflow_ev_all printsAndTools_nowrite (fun n d pv lt => rfl)
      env rn de pv lk la cm ?_ ?_
    · rw [h1]
      rfl
    · rw [h2]
      exact license_step_exists_no_write lk la env.currentYear

/-- Witness for C5: a pre-existing LICENSE is success at the step level, and a
concrete run over a directory with both files present performs no write. -/
theorem C5_witness :
    (LicenseTemplates.create_license_file true "MIT" (some "Jane") none 2024 =
      ([], true)) ∧
    ((GitHubAutomation.automate_full_workflow
        { pathExists := true, isDir := true, folderName := "proj", path := "/p",
          isGitRepo := true, gitignoreExists := true, licenseExists := true,
          currentYear := 2024, github_token := "t",
          gitVersion := .completed 0 "" "", gitInit := .completed 0 "" "",
          gitAdd := .completed 0 "" "", gitCommit := .completed 0 "" "",
          gitRemoteRemove := .completed 0 "" "", gitRemoteAdd := .completed 0 "" "",
          gitBranch := .completed 0 "" "", gitPush := .completed 0 "" "",
          createRepo := .success ⟨"https://g/u/r.git", "h"⟩ }
        none "" false (some "MIT") (some "Jane") "Initial commit").2).all
      (fun e => !e.isFsWrite) = true :=
  ⟨(C5_existing_files_untouched
      { pathExists := true, isDir := true, folderName := "proj", path := "/p",
        isGitRepo := true, gitignoreExists := true, licenseExists := true,
        currentYear := 2024, github_token := "t",
        gitVersion := .completed 0 "" "", gitInit := .completed 0 "" "",
        gitAdd := .completed 0 "" "", gitCommit := .completed 0 "" "",
        gitRemoteRemove := .completed 0 "" "", gitRemoteAdd := .completed 0 "" "",
        gitBranch := .completed 0 "" "", gitPush := .completed 0 "" "",
        createRepo := .success ⟨"https://g/u/r.git", "h"⟩ }
      none "" false (some "MIT") (some "Jane") "Initial commit").2.1
      "MIT" (some "Jane") none 2024 (by decide),
    (C5_existing_files_untouched _ none "" false (some "MIT") (some "Jane")
      "Initial commit").2.2 rfl rfl⟩

/-- C1: a commit invocation that fails with "nothing to commit" in its
diagnostic is reclassified as success and the workflow goes on to make the
repository-creation API call; a commit failure with any other diagnostic makes
the workflow return failure and the whole run makes no repository-creation API
call. -/
theorem C1_commit_failure_gates_remote_call (env : Env) (rn : Option String)
    (de : String) (pv : Bool) (lk la : Option String) (cm : String) :
    (∀ code out err m, code ≠ 0 → pyIn "nothing to commit" err = true →
      (GitOperations.commit (.completed code out err) m).2 = Except.ok true) ∧
    (∀ code out err, env.gitCommit = .completed code out err → code ≠ 0 →
      pyIn "nothing to commit" err = false →
        (GitHubAutomation.automate_full_workflow env rn de pv lk la cm).1 ≠
          Except.ok true ∧
        ((GitHubAutomation.automate_full_workflow env rn de pv lk la cm).2).all
          (fun e => !e.isApi) = true) ∧
    (∀ code out err, env.gitCommit = .completed code out err → code ≠ 0 →
      pyIn "nothing to commit" err = true → reachesCommitStep env →
        ((GitHubAutomation.automate_full_workflow env rn de pv lk la cm).2).any
          (fun e => e.isApi) = true) := by
  refine ⟨?_, ?_, ?_⟩
  · intro code out err m h0 hsub
    simp [GitOperations.commit, GitOperations.run_command, h0, hsub]
  · intro code out err hc h0 hsub
    have hstage := stage_commit_fail_no_api env (rn.getD env.folderName) de pv
      lk cm code out err hc h0 hsub
    cases hval : Config.validate_folder_path env.pathExists env.isDir env.path with
    | error msg =>
        refine ⟨?_, ?_⟩ <;>
          simp [GitHubAutomation.automate_full_workflow, hval,
            printsAndTools_noapi.1]
    | ok v =>
        cases hg2 : (GitOperations.check_git_installed env.gitVersion).2 with
        | error e =>
            refine ⟨?_, ?_⟩ <;>
              simp [GitHubAutomation.automate_full_workflow, hval, hg2,
                check_git_installed_ev, printsAndTools_noapi.2]
        | ok b =>
            cases hI2 : (if env.isGitRepo then
                (([], Except.ok true) : List Event × Except PyExc Bool)
                else GitOperations.init_repo env.gitInit).2 with
            | error e =>
                refine ⟨?_, ?_⟩ <;>
                  simp [GitHubAutomation.automate_full_workflow, hval, hg2, hI2,
                    List.all_append, check_git_installed_ev,
                    init_step_ev_all printsAndTools_noapi,
                    printsAndTools_noapi.1, printsAndTools_noapi.2]
            | ok bi =>
                cases bi
                case false =>
                  refine ⟨?_, ?_⟩ <;>
                    simp [GitHubAutomation.automate_full_workflow, hval, hg2, hI2,
                      List.all_append, check_git_installed_ev,
                      init_step_ev_all printsAndTools_noapi,
                      printsAndTools_noapi.1, printsAndTools_noapi.2]
                case true =>
                  refine ⟨?_, ?_⟩
                  · simp only [GitHubAutomation.automate_full_workflow, hval, hg2, hI2]
                    exact hstage.1
                  · simp [GitHubAutomation.automate_full_workflow, hval, hg2, hI2,
                      List.all_append, check_git_installed_ev,
                      init_step_ev_all printsAndTools_noapi,
                      create_gitignore_ev_no_api, license_step_ev_no_api,
                      printsAndTools_noapi.1, printsAndTools_noapi.2,
                      hstage.2]
  · intro code out err hc h0 hsub hreach
    obtain ⟨hpe, hd, hv, hi, hadd⟩ := hreach
    obtain ⟨hres, pre, htr⟩ := workflow_reached env rn de pv lk la cm hpe hd hv hi
    rw [htr]
    simp [List.any_append,
      stage_reaches_api env (rn.getD env.folderName) de pv lk cm hadd
        (Or.inr ⟨code, out, err, hc, h0, hsub⟩)]

/-- Witness for C1: a "nothing to commit" failure is success and a concrete
run with it reaches the API call; a commit failing with another diagnostic
makes a concrete run fail with no API call in its trace. -/
theorem C1_witness :
    ((GitOperations.commit
        (.completed 1 "" "nothing to commit, working tree clean") "m").2 =
      Except.ok true) ∧
    ((GitHubAutomation.automate_full_workflow
        { pathExists := true, isDir := true, folderName := "proj", path := "/p",
          isGitRepo := true, gitignoreExists := true, licenseExists := false,
          currentYear := 2024, github_token := "t",
          gitVersion := .completed 0 "" "", gitInit := .completed 0 "" "",
          gitAdd := .completed 0 "" "",
          gitCommit := .completed 1 "" "fatal: unable to auto-detect email address",
          gitRemoteRemove := .completed 0 "" "", gitRemoteAdd := .completed 0 "" "",
          gitBranch := .completed 0 "" "", gitPush := .completed 0 "" "",
          createRepo := .success ⟨"https://g/u/r.git", "h"⟩ }
        none "" false none none "Initial commit").1 ≠ Except.ok true ∧
      ((GitHubAutomation.automate_full_workflow
        { pathExists := true, isDir := true, folderName := "proj", path := "/p",
          isGitRepo := true, gitignoreExists := true, licenseExists := false,
          currentYear := 2024, github_token := "t",
          gitVersion := .completed 0 "" "", gitInit := .completed 0 "" "",
          gitAdd := .completed 0 "" "",
          gitCommit := .completed 1 "" "fatal: unable to auto-detect email address",
          gitRemoteRemove := .completed 0 "" "", gitRemoteAdd := .completed 0 "" "",
          gitBranch := .completed 0 "" "", gitPush := .completed 0 "" "",
          createRepo := .success ⟨"https://g/u/r.git", "h"⟩ }
        none "" false none none "Initial commit").2).all (fun e => !e.isApi) = true) ∧
    ((GitHubAutomation.automate_full_workflow
        { pathExists := true, isDir := true, folderName := "proj", path := "/p",
          isGitRepo := true, gitignoreExists := true, licenseExists := false,
          currentYear := 2024, github_token := "t",
          gitVersion := .completed 0 "" "", gitInit := .completed 0 "" "",
          gitAdd := .completed 0 "" "",
          gitCommit := .completed 1 "" "nothing to commit, working tree clean",
          gitRemoteRemove := .completed 0 "" "", gitRemoteAdd := .completed 0 "" "",
          gitBranch := .completed 0 "" "", gitPush := .completed 0 "" "",
          createRepo := .success ⟨"https://g/u/r.git", "h"⟩ }
        none "" false none none "Initial commit").2).any (fun e => e.isApi) = true :=
  ⟨(C1_commit_failure_gates_remote_call
      { pathExists := true, isDir := true, folderName := "proj", path := "/p",
        isGitRepo := true, gitignoreExists := true, licenseExists := false,
        currentYear := 2024, github_token := "t",
        gitVersion := .completed 0 "" "", gitInit := .completed 0 "" "",
        gitAdd := .completed 0 "" "",
        gitCommit := .completed 1 "" "fatal: unable to auto-detect email address",
        gitRemoteRemove := .completed 0 "" "", gitRemoteAdd := .completed 0 "" "",
        gitBranch := .completed 0 "" "", gitPush := .completed 0 "" "",
        createRepo := .success ⟨"https://g/u/r.git", "h"⟩ }
      none "" false none none "Initial commit").1
      1 "" "nothing to commit, working tree clean" "m" (by decide) (by decide),
    (C1_commit_failure_gates_remote_call _
      none "" false none none "Initial commit").2.1
      1 "" "fatal: unable to auto-detect email address" rfl (by decide) (by decide),
    (C1_commit_failure_gates_remote_call _
      none "" false none none "Initial commit").2.2
      1 "" "nothing to commit, working tree clean" rfl (by decide) (by decide)
      ⟨rfl, rfl, ⟨"", "", rfl⟩, Or.inl rfl, ⟨"", "", rfl⟩⟩⟩

/-- C4: a provider conflict (status 422) on repository creation prints the
distinguished "already exists" message and the workflow returns False without
any exception; any other creation failure also makes the workflow return
False, reported with the provider's message. -/
theorem C4_creation_conflict_and_failures (env : Env) (rn : Option String)
    (de : String) (pv : Bool) (lk la : Option String) (cm : String) :
    (∀ n d2 pv2 k dm es,
      GitHubAPI.create_repository (.githubExc 422 dm es) n d2 pv2 k =
        ([.print "Creating GitHub repository...",
          .apiCreateRepo n d2 pv2 (GitHubAPI.license_template_of k),
          .print ("\rRepository \x27" ++ n ++ "\x27 already exists")], none)) ∧
    (∀ st n d2 pv2 k dm es, st ≠ 422 →
      GitHubAPI.create_repository (.githubExc st dm es) n d2 pv2 k =
        ([.print "Creating GitHub repository...",
          .apiCreateRepo n d2 pv2 (GitHubAPI.license_template_of k),
          .print ("\rFailed to create repository: " ++ dm.getD es)], none)) ∧
    (∀ st dm es, env.createRepo = .githubExc st dm es → reachesCreateStep env →
      (GitHubAutomation.automate_full_workflow env rn de pv lk la cm).1 =
        Except.ok false) ∧
    (∀ dm es, env.createRepo = .githubExc 422 dm es → reachesCreateStep env →
      Event.print ("\rRepository \x27" ++ rn.getD env.folderName ++ "\x27 already exists") ∈
        (GitHubAutomation.automate_full_workflow env rn de pv lk la cm).2) ∧
    (∀ st dm es, st ≠ 422 → env.createRepo = .githubExc st dm es →
      reachesCreateStep env →
      Event.print ("\rFailed to create repository: " ++ dm.getD es) ∈
        (GitHubAutomation.automate_full_workflow env rn de pv lk la cm).2) := by
  refine ⟨?_, ?_, ?_, ?_, ?_⟩
  · intro n d2 pv2 k dm es
    simp [GitHubAPI.create_repository]
  · intro st n d2 pv2 k dm es h
    simp [GitHubAPI.create_repository, h]
  · intro st dm es hcr hreach
    obtain ⟨⟨hpe, hd, hv, hi, hadd⟩, hcommit⟩ := hreach
    obtain ⟨hres, pre, htr⟩ := workflow_reached env rn de pv lk la cm hpe hd hv hi
    rw [hres]
    exact (stage_create_exc env (rn.getD env.folderName) de pv lk cm st dm es
      hadd hcommit hcr).1
  · intro dm es hcr hreach
    obtain ⟨⟨hpe, hd, hv, hi, hadd⟩, hcommit⟩ := hreach
    obtain ⟨hres, pre, htr⟩ := workflow_reached env rn de pv lk la cm hpe hd hv hi
    rw [htr]
    have hmem := (stage_create_exc env (rn.getD env.folderName) de pv lk cm
      422 dm es hadd hcommit hcr).2
    have hin : Event.print ("\rRepository \x27" ++ rn.getD env.folderName ++ "\x27 already exists") ∈
        (GitHubAPI.create_repository env.createRepo (rn.getD env.folderName)
          de pv lk).1 := by
      rw [hcr]
      simp [GitHubAPI.create_repository]
    exact List.mem_append.mpr (Or.inr (hmem _ hin))
  · intro st dm es hst hcr hreach
    obtain ⟨⟨hpe, hd, hv, hi, hadd⟩, hcommit⟩ := hreach
    obtain ⟨hres, pre, htr⟩ := workflow_reached env rn de pv lk la cm hpe hd hv hi
    rw [htr]
    have hmem := (stage_create_exc env (rn.getD env.folderName) de pv lk cm
      st dm es hadd hcommit hcr).2
    have hin : Event.print ("\rFailed to create repository: " ++ dm.getD es) ∈
        (GitHubAPI.create_repository env.createRepo (rn.getD env.folderName)
          de pv lk).1 := by
      rw [hcr]
      simp [GitHubAPI.create_repository, hst]
    exact List.mem_append.mpr (Or.inr (hmem _ hin))

/-- Witness for C4: concrete runs where creation fails with status 422 and
with status 403. -/
theorem C4_witness :
    ((GitHubAutomation.automate_full_workflow
        { pathExists := true, isDir := true, folderName := "proj", path := "/p",
          isGitRepo := true, gitignoreExists := true, licenseExists := false,
          currentYear := 2024, github_token := "t",
          gitVersion := .completed 0 "" "", gitInit := .completed 0 "" "",
          gitAdd := .completed 0 "" "", gitCommit := .completed 0 "" "",
          gitRemoteRemove := .completed 0 "" "", gitRemoteAdd := .completed 0 "" "",
          gitBranch := .completed 0 "" "", gitPush := .completed 0 "" "",
          createRepo := .githubExc 422 (some "name already exists") "e" }
        none "" false none none "Initial commit").1 = Except.ok false) ∧
    (Event.print ("\rRepository \x27" ++ "proj" ++ "\x27 already exists") ∈
      (GitHubAutomation.automate_full_workflow
        { pathExists := true, isDir := true, folderName := "proj", path := "/p",
          isGitRepo := true, gitignoreExists := true, licenseExists := false,
          currentYear := 2024, github_token := "t",
          gitVersion := .completed 0 "" "", gitInit := .completed 0 "" "",
          gitAdd := .completed 0 "" "", gitCommit := .completed 0 "" "",
          gitRemoteRemove := .completed 0 "" "", gitRemoteAdd := .completed 0 "" "",
          gitBranch := .completed 0 "" "", gitPush := .completed 0 "" "",
          createRepo := .githubExc 422 (some "name already exists") "e" }
        none "" false none none "Initial commit").2) ∧
    ((GitHubAutomation.automate_full_workflow
        { pathExists := true, isDir := true, folderName := "proj", path := "/p",
          isGitRepo := true, gitignoreExists := true, licenseExists := false,
          currentYear := 2024, github_token := "t",
          gitVersion := .completed 0 "" "", gitInit := .completed 0 "" "",
          gitAdd := .completed 0 "" "", gitCommit := .completed 0 "" "",
          gitRemoteRemove := .completed 0 "" "", gitRemoteAdd := .completed 0 "" "",
          gitBranch := .completed 0 "" "", gitPush := .completed 0 "" "",
          createRepo := .githubExc 403 (some "Forbidden") "e" }
        none "" false none none "Initial commit").1 = Except.ok false) ∧
    (Event.print ("\rFailed to create repository: " ++ "Forbidden") ∈
      (GitHubAutomation.automate_full_workflow
        { pathExists := true, isDir := true, folderName := "proj", path := "/p",
          isGitRepo := true, gitignoreExists := true, licenseExists := false,
          currentYear := 2024, github_token := "t",
          gitVersion := .completed 0 "" "", gitInit := .completed 0 "" "",
          gitAdd := .completed 0 "" "", gitCommit := .completed 0 "" "",
          gitRemoteRemove := .completed 0 "" "", gitRemoteAdd := .completed 0 "" "",
          gitBranch := .completed 0 "" "", gitPush := .completed 0 "" "",
          createRepo := .githubExc 403 (some "Forbidden") "e" }
        none "" false none none "Initial commit").2) :=
  ⟨(C4_creation_conflict_and_failures _ none "" false none none "Initial commit").2.2.1
      422 (some "name already exists") "e" rfl
      ⟨⟨rfl, rfl, ⟨"", "", rfl⟩, Or.inl rfl, ⟨"", "", rfl⟩⟩, Or.inl ⟨"", "", rfl⟩⟩,
    (C4_creation_conflict_and_failures _ none "" false none none "Initial commit").2.2.2.1
      (some "name already exists") "e" rfl
      ⟨⟨rfl, rfl, ⟨"", "", rfl⟩, Or.inl rfl, ⟨"", "", rfl⟩⟩, Or.inl ⟨"", "", rfl⟩⟩,
    (C4_creation_conflict_and_failures _ none "" false none none "Initial commit").2.2.1
      403 (some "Forbidden") "e" rfl
      ⟨⟨rfl, rfl, ⟨"", "", rfl⟩, Or.inl rfl, ⟨"", "", rfl⟩⟩, Or.inl ⟨"", "", rfl⟩⟩,
    (C4_creation_conflict_and_failures _ none "" false none none "Initial commit").2.2.2.2
      403 (some "Forbidden") "e" (by decide) rfl
      ⟨⟨rfl, rfl, ⟨"", "", rfl⟩, Or.inl rfl, ⟨"", "", rfl⟩⟩, Or.inl ⟨"", "", rfl⟩⟩⟩

/-- C6 counterexample: for the license identifier "none" (lowercase), a
concrete workflow run does emit a warning — the guard in main.py only skips
the capitalised catalog key "None", so "none" reaches `create_license_file`
and is treated as unknown. -/
theorem C6_counterexample :
    Event.print "Warning: License \x27none\x27 not found." ∈
      (GitHubAutomation.automate_full_workflow
        { pathExists := true, isDir := true, folderName := "proj", path := "/p",
          isGitRepo := true, gitignoreExists := true, licenseExists := false,
          currentYear := 2024, github_token := "t",
          gitVersion := .completed 0 "" "", gitInit := .completed 0 "" "",
          gitAdd := .completed 0 "" "", gitCommit := .completed 0 "" "",
          gitRemoteRemove := .completed 0 "" "", gitRemoteAdd := .completed 0 "" "",
          gitBranch := .completed 0 "" "", gitPush := .completed 0 "" "",
          createRepo := .success ⟨"https://g/u/r.git", "h"⟩ }
        none "" false (some "none") none "Initial commit").2 := by
  decide

/-- C6 as amended: for the catalog's skip identifier "None" (capital N) the
workflow creates no license file, emits no warning, and behaves exactly as a
run with no license requested; the step itself returns success. The lowercase
spelling "none" is treated as an unknown identifier and draws a warning. -/
theorem C6_amended_skip_identifier_is_capital_None :
    (∀ env rn de pv la cm,
      GitHubAutomation.automate_full_workflow env rn de pv (some "None") la cm =
        GitHubAutomation.automate_full_workflow env rn de pv none la cm) ∧
    (∀ ex a y cy, LicenseTemplates.create_license_file ex "None" a y cy =
      ([], true)) := by
  constructor
  · intro env rn de pv la cm
    have h1 : GitHubAutomation.license_step env.licenseExists (some "None") la
        env.currentYear =
        GitHubAutomation.license_step env.licenseExists none la env.currentYear := by
      simp [GitHubAutomation.license_step]
    have h2 := stage_key_congr env (rn.getD env.folderName) de pv cm
      (some "None") none rfl
    simp only [GitHubAutomation.automate_full_workflow, h1, h2]
  · intro ex a y cy
    rfl

/-- C7: for an identifier outside the fixed catalog (no template content, no
provider mapping), a run that reaches the license step emits exactly one extra
event — the warning — writes no file, returns the same result as a run with
no license request, and its remaining trace is identical to that run's. -/
theorem C7_unknown_license_warns_and_proceeds (env : Env) (rn : Option String)
    (de : String) (pv : Bool) (la : Option String) (cm : String) (k : String)
    (hk1 : LicenseTemplates.get_license_content k la none env.currentYear = none)
    (hk2 : GitHubAPI.github_license_map k = none)
    (hkN : k ≠ "None") (hkE : k ≠ "")
    (hpe : env.pathExists = true) (hd : env.isDir = true)
    (hv : gitSucceeds env.gitVersion)
    (hi : env.isGitRepo = true ∨ gitSucceeds env.gitInit) :
    (GitHubAutomation.automate_full_workflow env rn de pv (some k) la cm).1 =
      (GitHubAutomation.automate_full_workflow env rn de pv none la cm).1 ∧
    ∃ pre post,
      (GitHubAutomation.automate_full_workflow env rn de pv (some k) la cm).2 =
        pre ++ ([.print ("Warning: License \x27" ++ k ++ "\x27 not found.")] ++ post) ∧
      (GitHubAutomation.automate_full_workflow env rn de pv none la cm).2 =
        pre ++ post := by
  obtain ⟨ov, ev, hv⟩ := hv
  have hval : Config.validate_folder_path env.pathExists env.isDir env.path =
      .ok env.path := by
    simp [Config.validate_folder_path, hpe, hd]
  have hchk : GitOperations.check_git_installed env.gitVersion =
      ([.toolInvocation ["git", "--version"]], .ok true) := by
    rw [hv]
    simp [GitOperations.check_git_installed, GitOperations.run_command]
  have hinit : ∃ evI,
      (if env.isGitRepo then (([], Except.ok true) : List Event × Except PyExc Bool)
       else GitOperations.init_repo env.gitInit) = (evI, Except.ok true) := by
    rcases hi with hrepo | ⟨oi, ei, hi2⟩
    · rw [hrepo]
      exact ⟨[], rfl⟩
    · cases hrepo : env.isGitRepo
      case true => exact ⟨[], rfl⟩
      case false =>
        rw [hi2]
        simp [GitOperations.init_repo, GitOperations.run_command]
  obtain ⟨evI, hinit⟩ := hinit
  have hlicK : GitHubAutomation.license_step env.licenseExists (some k) la
      env.currentYear =
      [.print ("Warning: License \x27" ++ k ++ "\x27 not found.")] := by
    simp [GitHubAutomation.license_step, hkE, hkN,
      LicenseTemplates.create_license_file, hk1]
  have hlicN : GitHubAutomation.license_step env.licenseExists none la
      env.currentYear = [] := rfl
  have hstg := stage_key_congr env (rn.getD env.folderName) de pv cm
    (some k) none (by simp [GitHubAPI.license_template_of, hkE, hkN, hk2])
  constructor
  · simp only [GitHubAutomation.automate_full_workflow, hval, hchk, hinit, hstg]
  · refine ⟨[Event.toolInvocation ["git", "--version"]] ++ evI
      ++ GitOperations.create_gitignore env.gitignoreExists,
      (GitHubAutomation.stage_commit_and_publish env (rn.getD env.folderName)
        de pv none cm).2, ?_, ?_⟩
    · simp only [GitHubAutomation.automate_full_workflow, hval, hchk, hinit,
        hlicK, hstg]
      simp [List.append_assoc]
    · simp only [GitHubAutomation.automate_full_workflow, hval, hchk, hinit,
        hlicN]
      simp [List.append_assoc]

/-- Witness for C7 at the unknown identifier "WTFPL" on a concrete run. -/
theorem C7_witness :
    (GitHubAutomation.automate_full_workflow
        { pathExists := true, isDir := true, folderName := "proj", path := "/p",
          isGitRepo := true, gitignoreExists := true, licenseExists := false,
          currentYear := 2024, github_token := "t",
          gitVersion := .completed 0 "" "", gitInit := .completed 0 "" "",
          gitAdd := .completed 0 "" "", gitCommit := .completed 0 "" "",
          gitRemoteRemove := .completed 0 "" "", gitRemoteAdd := .completed 0 "" "",
          gitBranch := .completed 0 "" "", gitPush := .completed 0 "" "",
          createRepo := .success ⟨"https://g/u/r.git", "h"⟩ }
        none "" false (some "WTFPL") none "Initial commit").1 =
      (GitHubAutomation.automate_full_workflow
        { pathExists := true, isDir := true, folderName := "proj", path := "/p",
          isGitRepo := true, gitignoreExists := true, licenseExists := false,
          currentYear := 2024, github_token := "t",
          gitVersion := .completed 0 "" "", gitInit := .completed 0 "" "",
          gitAdd := .completed 0 "" "", gitCommit := .completed 0 "" "",
          gitRemoteRemove := .completed 0 "" "", gitRemoteAdd := .completed 0 "" "",
          gitBranch := .completed 0 "" "", gitPush := .completed 0 "" "",
          createRepo := .success ⟨"https://g/u/r.git", "h"⟩ }
        none "" false none none "Initial commit").1 ∧
    ∃ pre post,
      (GitHubAutomation.automate_full_workflow
        { pathExists := true, isDir := true, folderName := "proj", path := "/p",
          isGitRepo := true, gitignoreExists := true, licenseExists := false,
          currentYear := 2024, github_token := "t",
          gitVersion := .completed 0 "" "", gitInit := .completed 0 "" "",
          gitAdd := .completed 0 "" "", gitCommit := .completed 0 "" "",
          gitRemoteRemove := .completed 0 "" "", gitRemoteAdd := .completed 0 "" "",
          gitBranch := .completed 0 "" "", gitPush := .completed 0 "" "",
          createRepo := .success ⟨"https://g/u/r.git", "h"⟩ }
        none "" false (some "WTFPL") none "Initial commit").2 =
        pre ++ ([.print ("Warning: License \x27" ++ "WTFPL" ++ "\x27 not found.")] ++ post) ∧
      (GitHubAutomation.automate_full_workflow
        { pathExists := true, isDir := true, folderName := "proj", path := "/p",
          isGitRepo := true, gitignoreExists := true, licenseExists := false,
          currentYear := 2024, github_token := "t",
          gitVersion := .completed 0 "" "", gitInit := .completed 0 "" "",
          gitAdd := .completed 0 "" "", gitCommit := .completed 0 "" "",
          gitRemoteRemove := .completed 0 "" "", gitRemoteAdd := .completed 0 "" "",
          gitBranch := .completed 0 "" "", gitPush := .completed 0 "" "",
          createRepo := .success ⟨"https://g/u/r.git", "h"⟩ }
        none "" false none none "Initial commit").2 = pre ++ post :=
  C7_unknown_license_warns_and_proceeds _ none "" false none "Initial commit"
    "WTFPL" (by decide) (by decide) (by decide) (by decide) rfl rfl
    ⟨"", "", rfl⟩ (Or.inl rfl)
